import Mathlib

/-!
Verification of the `useGameView` composable (Wargame repository).

Shallow embedding of `src/composables/useGameView.ts` and proofs of the
spec's claims about it.

The source builds a Babylon.js scene: `createScene` wires up a camera, a
directional light, a shadow generator, a heightmap ground and a skybox;
`createGround` / `createGroundLine` / `createGroundObject` lay out a field of
hexagonal columns on an offset grid with randomized heights (the spec calls
this layout `generateLayout`); `Init` starts the render loop and installs a
window-resize listener.

Numbers are modelled over an abstract field `K` (a `LinearOrderedField` where
order matters): the source's floating-point literals `0.75`, `0.5`, `0.1` are
the exact field values `3/4`, `1/2`, `1/10`, and `Math.sqrt(3)/2` is an
explicit parameter `s : K`, instantiated with `Real.sqrt 3 / 2` at `K = ℝ`
in the theorems that mention it. Loop counters of the source are JS numbers;
a `for (let i = 0; i < n; i++)` loop over an integer bound `n : ℤ` runs
`n.toNat` times (zero times when `n` is negative), which the embedding makes
explicit via `Int.toNat`.
-/

/-- A placement point `(x, z)` of the hex layout. -/
abbrev Point (K : Type) := K × K

/-- The z-coordinate at which row `i` starts, from the `if (i % 2 == 0)`
branch of `createGround` (line 108): even rows start at `ZPos + 0.5`, odd
rows at `ZPos`. -/
def rowZ {K : Type} [Field K] (originZ : K) (i : ℕ) : K :=
  if i % 2 = 0 then originZ + 1/2 else originZ

/-- Point emission of one `createGroundLine` call (lines 125–130): `length`
iterations, each emitting the current `(XPos, ZPos)` and then advancing
`ZPos += Math.sqrt(3)/2` (the parameter `s`). -/
def generateLine {K : Type} [Field K] (s : K) : ℕ → K → K → List (Point K)
  | 0, _, _ => []
  | n + 1, XPos, ZPos => (XPos, ZPos) :: generateLine s n XPos (ZPos + s)

/-- Point emission of the row loop of `createGround` (lines 107–115): row `i`
is a `createGroundLine` of `cols` points starting at
`(XPos + i * 0.75, rowZ ZPos i)`.  `i` is the current loop counter, `n` the
number of remaining iterations. -/
def generateRows {K : Type} [Field K] (s : K) (cols : ℕ) (XPos ZPos : K) :
    ℕ → ℕ → List (Point K)
  | _, 0 => []
  | i, n + 1 =>
      generateLine s cols (XPos + (i : K) * (3/4)) (rowZ ZPos i) ++
        generateRows s cols XPos ZPos (i + 1) n

/-- The hex layout produced by `createGround(size, XPos, ZPos, scene)`
(lines 106–116): one point per `createGroundObject` call, rows in order
`i = 0, 1, …`.  This is the pure function the spec names `generateLayout`;
`rowCount` is `size.x` and `columnsPerRow` is `size.z`. -/
def generateLayout {K : Type} [Field K] (s : K) (rowCount columnsPerRow : ℤ)
    (originX originZ : K) : List (Point K) :=
  generateRows s columnsPerRow.toNat originX originZ 0 rowCount.toNat

/-- Closed form of `generateLine`: the `j`-th emitted point is
`(XPos, ZPos + j*s)`. -/
lemma generateLine_eq {K : Type} [Field K] (s : K) (n : ℕ) (XPos ZPos : K) :
    generateLine s n XPos ZPos =
      (List.range n).map (fun (j : ℕ) => (XPos, ZPos + (j : K) * s)) := by
  induction n generalizing ZPos with
  | zero => rfl
  | succ n ih =>
      rw [generateLine, ih, List.range_succ_eq_map]
      simp only [List.map_cons, List.map_map, Nat.cast_zero, zero_mul, add_zero]
      refine congrArg₂ _ rfl ?_
      apply List.map_congr_left
      intro j _
      simp only [Function.comp_apply, Nat.cast_succ]
      ring_nf

/-- Closed form of `generateRows`: rows `i, i+1, …, i+n-1` in order. -/
lemma generateRows_eq {K : Type} [Field K] (s : K) (cols : ℕ) (XPos ZPos : K)
    (i n : ℕ) :
    generateRows s cols XPos ZPos i n =
      (List.range n).flatMap (fun (k : ℕ) =>
        (List.range cols).map (fun (j : ℕ) =>
          (XPos + ((i + k : ℕ) : K) * (3/4), rowZ ZPos (i + k) + (j : K) * s))) := by
  induction n generalizing i with
  | zero => rfl
  | succ n ih =>
      rw [generateRows, ih, List.range_succ_eq_map]
      simp only [List.flatMap_cons, List.flatMap_map, Nat.add_zero, generateLine_eq]
      refine congrArg₂ _ rfl ?_
      apply List.flatMap_congr
      intro k _
      have h : i + (k + 1) = (i + 1) + k := by omega
      simp [h]

/-- Row-major closed form of `generateLayout`: for row `i < rowCount.toNat`
and column `j < columnsPerRow.toNat`, the point is
`(originX + i*0.75, rowZ originZ i + j*s)`. -/
lemma generateLayout_eq {K : Type} [Field K] (s : K) (rowCount columnsPerRow : ℤ)
    (originX originZ : K) :
    generateLayout s rowCount columnsPerRow originX originZ =
      (List.range rowCount.toNat).flatMap (fun (i : ℕ) =>
        (List.range columnsPerRow.toNat).map (fun (j : ℕ) =>
          (originX + (i : K) * (3/4), rowZ originZ i + (j : K) * s))) := by
  rw [generateLayout, generateRows_eq]
  simp

/-- The layout has `rowCount.toNat * columnsPerRow.toNat` points. -/
lemma generateLayout_length {K : Type} [Field K] (s : K)
    (rowCount columnsPerRow : ℤ) (originX originZ : K) :
    (generateLayout s rowCount columnsPerRow originX originZ).length =
      rowCount.toNat * columnsPerRow.toNat := by
  rw [generateLayout_eq]
  rw [List.length_flatMap]
  simp [Function.comp_def]

/-- Indexing a `flatMap` whose chunks all have length `m`: the element at flat
index `k*m + j` is element `j` of chunk `k`. -/
lemma flatMap_getElem_uniform {α β : Type} (m : ℕ) (f : α → List β) :
    ∀ (l : List α) (k j : ℕ), (∀ a ∈ l, (f a).length = m) →
      ∀ hk : k < l.length, j < m →
        (l.flatMap f)[k * m + j]? = (f (l.get ⟨k, hk⟩))[j]? := by
  intro l
  induction l with
  | nil => intro k j _ hk; exact absurd hk (by simp)
  | cons a t ih =>
      intro k j hlen hk hj
      match k with
      | 0 =>
          have ha : (f a).length = m := hlen a (List.mem_cons_self a t)
          rw [List.flatMap_cons]
          rw [List.getElem?_append_left (by omega)]
          simp
      | k + 1 =>
          have ha : (f a).length = m := hlen a (List.mem_cons_self a t)
          rw [List.flatMap_cons]
          rw [List.getElem?_append_right (by rw [ha]; calc
            m ≤ m + (k * m + j) := by omega
            _ = (k + 1) * m + j := by ring_nf)]
          have harith : (k + 1) * m + j - (f a).length = k * m + j := by
            rw [ha]; ring_nf; omega
          rw [harith]
          have hk' : k < t.length := by simpa using hk
          rw [ih k j (fun b hb => hlen b (List.mem_cons_of_mem a hb)) hk' hj]
          rfl

/-- The point of the layout at row `i`, column `j` (flat index
`i * columnsPerRow + j`) is `(originX + i*0.75, rowZ originZ i + j*s)`. -/
lemma generateLayout_getElem {K : Type} [Field K] (s : K)
    (rowCount columnsPerRow : ℤ) (originX originZ : K) (i j : ℕ)
    (hi : i < rowCount.toNat) (hj : j < columnsPerRow.toNat) :
    (generateLayout s rowCount columnsPerRow originX originZ)[i * columnsPerRow.toNat + j]? =
      some (originX + (i : K) * (3/4), rowZ originZ i + (j : K) * s) := by
  rw [generateLayout_eq]
  rw [flatMap_getElem_uniform columnsPerRow.toNat _ (List.range rowCount.toNat) i j
    (by intro a _; simp) (by simpa using hi) hj]
  simp [hj]

/-! ## Scene state model

The effectful part of the source mutates a Babylon scene (meshes, camera,
light), the module-level `shadowGenerator` variable (line 12, assigned only
at line 57 inside `createScene`), and consumes `Math.random()` draws.  The
embedding threads an explicit `GVState`; `Math.random()` is an ambient
stream `rng : ℕ → K` consumed at an index held in the state.  Calling a
method on the undefined `shadowGenerator` (line 145 before line 57 has run)
throws; fallible operations return `Except`, the error carrying the fault
and the state at the throw point (the mesh created before the throw stays
in the scene). -/

/-- The `coordinatesMode` of a Babylon texture; the source only ever uses the
default and `BABYLON.Texture.SKYBOX_MODE` (line 93). -/
inductive CoordinatesMode
  | explicitMode
  | skyboxMode
deriving Repr, DecidableEq

/-- A reflection texture reference: `new BABYLON.CubeTexture(path, scene)`
plus its `coordinatesMode` field. -/
structure TextureRef where
  path : String
  coordinatesMode : CoordinatesMode
deriving Repr, DecidableEq

/-- A `BABYLON.Color3` color value. -/
structure Color3 (K : Type) where
  r : K
  g : K
  b : K
deriving Repr, DecidableEq

/-- The fields of `BABYLON.StandardMaterial` the source touches. -/
structure MaterialState (K : Type) where
  name : String
  backFaceCulling : Bool
  diffuseColor : Color3 K
  specularColor : Color3 K
  emissiveColor : Color3 K
  ambientColor : Color3 K
  diffuseTexture : Option String
  reflectionTexture : Option TextureRef
deriving Repr, DecidableEq

/-- A fresh `new BABYLON.StandardMaterial(name, scene)`: Babylon's defaults
(white diffuse/specular, black emissive/ambient, back-face culling on,
no textures). -/
def newStandardMaterial {K : Type} [Field K] (name : String) : MaterialState K :=
  { name := name
    backFaceCulling := true
    diffuseColor := ⟨1, 1, 1⟩
    specularColor := ⟨1, 1, 1⟩
    emissiveColor := ⟨0, 0, 0⟩
    ambientColor := ⟨0, 0, 0⟩
    diffuseTexture := none
    reflectionTexture := none }

/-- Constructor arguments of the three `MeshBuilder` calls the source makes
(lines 76, 89, 139). -/
inductive MeshParams (K : Type)
  | cylinder (diameter : K) (tessellation : ℕ) (height : K)
  | box (size : K)
  | groundFromHeightMap (heightMapPath : String) (width height : K)
      (subdivisions : ℕ) (maxHeight minHeight : K)
deriving Repr, DecidableEq

/-- A mesh in the scene: identity, builder parameters, position,
shadow-receiving flag and material. -/
structure Mesh (K : Type) where
  id : ℕ
  name : String
  params : MeshParams K
  posX : K
  posY : K
  posZ : K
  receiveShadows : Bool
  material : Option (MaterialState K)
deriving Repr, DecidableEq

/-- A fresh mesh as `MeshBuilder` returns it: at the origin, not receiving
shadows, no material assigned yet. -/
def newMesh {K : Type} [Field K] (id : ℕ) (name : String) (params : MeshParams K) :
    Mesh K :=
  { id := id, name := name, params := params
    posX := 0, posY := 0, posZ := 0
    receiveShadows := false, material := none }

/-- The `ArcRotateCamera` of line 50 (after `setTarget` and
`attachControl`). -/
structure CameraState (K : Type) where
  name : String
  alpha : K
  beta : K
  radius : K
  target : K × K × K
  attachedTo : Option String
deriving Repr, DecidableEq

/-- The `DirectionalLight` of lines 55–56. -/
structure LightState (K : Type) where
  name : String
  direction : K × K × K
  position : K × K × K
deriving Repr, DecidableEq

/-- A `BABYLON.ShadowGenerator`: shadow-map resolution, the light it is bound
to at construction, and the ordered set of registered shadow casters
(mesh ids added by `addShadowCaster`). -/
structure ShadowGen (K : Type) where
  mapSize : ℕ
  light : LightState K
  casters : List ℕ
deriving Repr, DecidableEq

/-- Construction events, in the order the corresponding source lines run;
used to state construction-order claims. -/
inductive BuildEvent
  | sceneCreated
  | cameraCreated
  | lightCreated
  | shadowGeneratorCreated
  | groundCreated
  | skyBoxCreated
  | columnCreated
deriving Repr, DecidableEq

/-- Runtime faults of the embedding: dereferencing the module-level
`shadowGenerator` variable while it is still undefined. -/
inductive Fault
  | undefinedShadowGenerator
deriving Repr, DecidableEq

/-- The mutable state of the composable: the scene contents plus the
module-level `shadowGenerator` variable and the `Math.random()` cursor. -/
structure GVState (K : Type) where
  cameras : List (CameraState K)
  lights : List (LightState K)
  meshes : List (Mesh K)
  nextId : ℕ
  shadowGen : Option (ShadowGen K)
  randIdx : ℕ
  trace : List BuildEvent
deriving Repr, DecidableEq

/-- The cylinder mesh built and positioned by `createGroundObject`
(lines 139–144): name `"roof"`, diameter 1, tessellation 6, the given
height, placed at `(x, height/2, z)`, receiving shadows. -/
def mkColumn {K : Type} [Field K] (id : ℕ) (x z height : K) : Mesh K :=
  { newMesh id ("roof") (MeshParams.cylinder 1 6 height) with
    posX := x, posZ := z, posY := height / 2
    receiveShadows := true }

/-- The function `createGroundObject(x, z, height, scene)` (lines 138–147): build the
cylinder, position it, mark it to receive shadows, then register it with
`shadowGenerator` — which throws if that variable is still undefined. -/
def createGroundObject {K : Type} [Field K] (x z height : K) (st : GVState K) :
    Except (Fault × GVState K) (GVState K) :=
  let obj := mkColumn st.nextId x z height
  let st1 : GVState K :=
    { st with meshes := st.meshes ++ [obj], nextId := st.nextId + 1
              trace := st.trace ++ [BuildEvent.columnCreated] }
  match st1.shadowGen with
  | none => Except.error (Fault.undefinedShadowGenerator, st1)
  | some sg =>
      Except.ok { st1 with shadowGen := some { sg with casters := sg.casters ++ [obj.id] } }

/-- Loop body of `createGroundLine` (lines 126–129), recursing on the number
of remaining iterations: draw `Math.random()`, build a column of height
`random/2 + 0.5` at the current `(XPos, ZPos)`, then advance
`ZPos += Math.sqrt(3)/2` (the parameter `s`). -/
def createGroundLineAux {K : Type} [Field K] (rng : ℕ → K) (s : K) :
    ℕ → K → K → GVState K → Except (Fault × GVState K) (GVState K)
  | 0, _, _, st => Except.ok st
  | n + 1, XPos, ZPos, st =>
      let r := rng st.randIdx
      let st1 : GVState K := { st with randIdx := st.randIdx + 1 }
      match createGroundObject XPos ZPos (r / 2 + 1/2) st1 with
      | Except.error e => Except.error e
      | Except.ok st2 => createGroundLineAux rng s n XPos (ZPos + s) st2

/-- The function `createGroundLine(length, XPos, ZPos, scene)` (lines 125–130); a
negative `length` runs the loop zero times. -/
def createGroundLine {K : Type} [Field K] (rng : ℕ → K) (s : K) (length : ℤ)
    (XPos ZPos : K) (st : GVState K) : Except (Fault × GVState K) (GVState K) :=
  createGroundLineAux rng s length.toNat XPos ZPos st

/-- The `size` argument of `createGround`: `{x: row count, z: columns per
row}`. -/
structure GroundSize where
  x : ℤ
  z : ℤ
deriving Repr, DecidableEq

/-- Row loop of `createGround` (lines 107–115), recursing on the number of
remaining iterations with current counter `i`: even rows start at
`ZPos + 0.5`, odd rows at `ZPos`, row `i` starts at `XPos + i * 0.75`. -/
def createGroundRowsAux {K : Type} [Field K] (rng : ℕ → K) (s : K) (sizeZ : ℤ)
    (XPos ZPos : K) : ℕ → ℕ → GVState K → Except (Fault × GVState K) (GVState K)
  | _, 0, st => Except.ok st
  | i, n + 1, st =>
      let row :=
        if i % 2 = 0 then
          createGroundLine rng s sizeZ (XPos + (i : K) * (3/4)) (ZPos + 1/2) st
        else
          createGroundLine rng s sizeZ (XPos + (i : K) * (3/4)) ZPos st
      match row with
      | Except.error e => Except.error e
      | Except.ok st1 => createGroundRowsAux rng s sizeZ XPos ZPos (i + 1) n st1

/-- The function `createGround(size, XPos, ZPos, scene)` (lines 106–116): the hex-column
field builder; a negative `size.x` runs the row loop zero times. -/
def createGround {K : Type} [Field K] (rng : ℕ → K) (s : K) (size : GroundSize)
    (XPos ZPos : K) (st : GVState K) : Except (Fault × GVState K) (GVState K) :=
  createGroundRowsAux rng s size.z XPos ZPos 0 size.x.toNat st

/-- The function `createRealGround(scene)` (lines 69–82): heightmap ground `"12d3"`
(20×20 world units, 250 subdivisions, heights remapped to [2, 10]) with the
textured material of lines 70–74, set to receive shadows. -/
def createRealGround {K : Type} [Field K] (st : GVState K) : GVState K :=
  let groundMaterial : MaterialState K :=
    { newStandardMaterial ("ground") with
        diffuseTexture := some ("/src/assets/map/bit_map.png")
        specularColor := ⟨1/10, 1/10, 1/10⟩
        emissiveColor := ⟨1, 1, 1⟩
        ambientColor := ⟨23/100, 49/50, 53/100⟩ }
  let ground : Mesh K :=
    { newMesh st.nextId ("12d3")
        (MeshParams.groundFromHeightMap ("/src/assets/map/height_map.png") 20 20 250 10 2) with
      material := some groundMaterial
      receiveShadows := true }
  { st with meshes := st.meshes ++ [ground], nextId := st.nextId + 1
            trace := st.trace ++ [BuildEvent.groundCreated] }

/-- The function `createSkyBox(scene)` (lines 88–97): a box of size 1000 with a
non-backface-culled material whose cube-map reflection texture is in skybox
coordinate mode and whose diffuse and specular colors are black. -/
def createSkyBox {K : Type} [Field K] (st : GVState K) : GVState K :=
  let skybox : Mesh K := newMesh st.nextId ("skyBox") (MeshParams.box 1000)
  let skyboxMaterial : MaterialState K :=
    { newStandardMaterial ("skyBox") with
        backFaceCulling := false
        reflectionTexture := some { path := "src/assets/map/skybox/skybox"
                                    coordinatesMode := CoordinatesMode.skyboxMode }
        diffuseColor := ⟨0, 0, 0⟩
        specularColor := ⟨0, 0, 0⟩ }
  { st with meshes := st.meshes ++ [{ skybox with material := some skyboxMaterial }]
            nextId := st.nextId + 1
            trace := st.trace ++ [BuildEvent.skyBoxCreated] }

/-- The function `createScene(engine, canvas)` (lines 44–63): scene, camera (attached to
the canvas), directional light, shadow generator (resolution 1024, bound to
that light), the heightmap ground, then the skybox.  `pi` stands for
`Math.PI`. -/
def createScene {K : Type} [Field K] (pi : K) (canvas : String) : GVState K :=
  let st0 : GVState K :=
    { cameras := [], lights := [], meshes := [], nextId := 0
      shadowGen := none, randIdx := 0, trace := [BuildEvent.sceneCreated] }
  let camera : CameraState K :=
    { name := "camera", alpha := -pi / 2, beta := pi / (5/2), radius := 10
      target := (0, 0, 0), attachedTo := some canvas }
  let st1 : GVState K :=
    { st0 with cameras := st0.cameras ++ [camera]
               trace := st0.trace ++ [BuildEvent.cameraCreated] }
  let light : LightState K :=
    { name := "dir01", direction := (0, -(1/10), 1/10), position := (10, 10, 0) }
  let st2 : GVState K :=
    { st1 with lights := st1.lights ++ [light]
               trace := st1.trace ++ [BuildEvent.lightCreated] }
  let st3 : GVState K :=
    { st2 with shadowGen := some { mapSize := 1024, light := light, casters := [] }
               trace := st2.trace ++ [BuildEvent.shadowGeneratorCreated] }
  let st4 := createRealGround st3
  createSkyBox st4

/-- The callback registrations `Init` (lines 25–36) leaves behind: one
render-loop body (`scene.render()`) and one window `resize` listener
(`engine.resize()`). -/
structure Registrations where
  renderLoop : Bool
  resizeListeners : ℕ
deriving Repr, DecidableEq

/-- The function `Init(canvas)` (lines 25–36): create the engine and the scene, start the
render loop, install the resize listener. -/
def Init {K : Type} [Field K] (pi : K) (canvas : String) :
    GVState K × Registrations :=
  (createScene pi canvas, { renderLoop := true, resizeListeners := 1 })

/-- What a delivered host event makes the registered callbacks do. -/
inductive HostAction
  | render
  | engineResize
deriving Repr, DecidableEq

/-- Events delivered by the host: render-loop ticks and window `resize`
notifications. -/
inductive HostEvent
  | tick
  | resize
deriving Repr, DecidableEq

/-- Modelled from the spec: the host's single-threaded event queue (the
rendering runtime's render-loop scheduling and the window's resize
dispatch are external collaborators, not code of this repository).  A tick
invokes the render-loop body if one is installed; a `resize` event invokes
each registered `resize` listener once.  Dispatching an event does not
change the registrations. -/
def dispatchEvent (r : Registrations) : HostEvent → Registrations × List HostAction
  | HostEvent.tick => (r, if r.renderLoop then [HostAction.render] else [])
  | HostEvent.resize => (r, List.replicate r.resizeListeners HostAction.engineResize)

/-- Modelled from the spec: deliver a list of host events in order,
accumulating the actions the callbacks perform. -/
def runHost (r : Registrations) : List HostEvent → Registrations × List HostAction
  | [] => (r, [])
  | e :: es =>
      let p := dispatchEvent r e
      let q := runHost p.1 es
      (q.1, p.2 ++ q.2)

/-- With the shadow generator assigned, `createGroundObject` succeeds:
the column is appended to the scene and its id is appended to the caster
set. -/
lemma createGroundObject_some {K : Type} [Field K] (x z height : K)
    (st : GVState K) (sg : ShadowGen K) (hsg : st.shadowGen = some sg) :
    createGroundObject x z height st = Except.ok
      { st with meshes := st.meshes ++ [mkColumn st.nextId x z height]
                nextId := st.nextId + 1
                trace := st.trace ++ [BuildEvent.columnCreated]
                shadowGen := some { sg with casters := sg.casters ++ [st.nextId] } } := by
  rw [createGroundObject]
  simp only [hsg]
  rfl

/-- Closed form of `createGroundLineAux` when the shadow generator is
assigned: `n` columns at `(XPos, ZPos + j*s)` with heights
`rng (randIdx + j)/2 + 1/2`, ids `nextId + j`, all registered as casters in
order. -/
lemma createGroundLineAux_some {K : Type} [Field K] (rng : ℕ → K) (s : K) :
    ∀ (n : ℕ) (XPos ZPos : K) (st : GVState K) (sg : ShadowGen K),
      st.shadowGen = some sg →
      createGroundLineAux rng s n XPos ZPos st = Except.ok
        { st with
          meshes := st.meshes ++ (List.range n).map (fun (j : ℕ) =>
            mkColumn (st.nextId + j) XPos (ZPos + (j : K) * s)
              (rng (st.randIdx + j) / 2 + 1/2))
          nextId := st.nextId + n
          randIdx := st.randIdx + n
          shadowGen := some { sg with
            casters := sg.casters ++ (List.range n).map (fun (j : ℕ) => st.nextId + j) }
          trace := st.trace ++ List.replicate n BuildEvent.columnCreated } := by
  intro n
  induction n with
  | zero =>
      intro XPos ZPos st sg hsg
      rw [createGroundLineAux]
      simp [← hsg]
  | succ n ih =>
      intro XPos ZPos st sg hsg
      rw [createGroundLineAux]
      have h1 : ({ st with randIdx := st.randIdx + 1 } : GVState K).shadowGen = some sg := hsg
      rw [createGroundObject_some _ _ _ _ _ h1]
      dsimp only
      rw [ih XPos (ZPos + s) _ _ rfl]
      simp only [Except.ok.injEq, GVState.mk.injEq, ShadowGen.mk.injEq,
        Option.some.injEq, List.range_succ_eq_map, List.map_cons, List.map_map,
        List.append_assoc, List.singleton_append, List.replicate_succ]
      refine ⟨trivial, trivial, ?_, by omega, ⟨trivial, trivial, ?_⟩, by omega, trivial⟩
      · refine congrArg₂ _ rfl (congrArg₂ _ ?_ ?_)
        · simp [mkColumn, newMesh]
        · apply List.map_congr_left
          intro j _
          simp only [Function.comp_apply, Nat.cast_succ]
          have e1 : st.nextId + 1 + j = st.nextId + (j + 1) := by omega
          have e2 : st.randIdx + 1 + j = st.randIdx + (j + 1) := by omega
          rw [e1, e2]
          refine congrArg₂ (fun a b => mkColumn (st.nextId + (j + 1)) XPos a b) ?_ rfl
          ring
      · refine congrArg₂ _ rfl (congrArg₂ _ ?_ ?_)
        · omega
        · apply List.map_congr_left
          intro j _
          simp only [Function.comp_apply]
          omega

/-- Closed form of the row loop of `createGround` when the shadow generator
is assigned: rows `i, i+1, …` of `sizeZ.toNat` columns each, ids and random
draws consumed sequentially in row-major order. -/
lemma createGroundRowsAux_some {K : Type} [Field K] (rng : ℕ → K) (s : K)
    (sizeZ : ℤ) (XPos ZPos : K) :
    ∀ (n i : ℕ) (st : GVState K) (sg : ShadowGen K), st.shadowGen = some sg →
      createGroundRowsAux rng s sizeZ XPos ZPos i n st = Except.ok
        { st with
          meshes := st.meshes ++ (List.range n).flatMap (fun (k : ℕ) =>
            (List.range sizeZ.toNat).map (fun (j : ℕ) =>
              mkColumn (st.nextId + (k * sizeZ.toNat + j))
                (XPos + ((i + k : ℕ) : K) * (3/4))
                (rowZ ZPos (i + k) + (j : K) * s)
                (rng (st.randIdx + (k * sizeZ.toNat + j)) / 2 + 1/2)))
          nextId := st.nextId + n * sizeZ.toNat
          randIdx := st.randIdx + n * sizeZ.toNat
          shadowGen := some { sg with
            casters := sg.casters ++
              (List.range (n * sizeZ.toNat)).map (fun (j : ℕ) => st.nextId + j) }
          trace := st.trace ++
            List.replicate (n * sizeZ.toNat) BuildEvent.columnCreated } := by
  intro n
  induction n with
  | zero =>
      intro i st sg hsg
      rw [createGroundRowsAux]
      simp [← hsg]
  | succ n ih =>
      intro i st sg hsg
      rw [createGroundRowsAux]
      have hrow : (if i % 2 = 0 then
            createGroundLine rng s sizeZ (XPos + (i : K) * (3/4)) (ZPos + 1/2) st
          else
            createGroundLine rng s sizeZ (XPos + (i : K) * (3/4)) ZPos st) =
          createGroundLine rng s sizeZ (XPos + (i : K) * (3/4)) (rowZ ZPos i) st := by
        by_cases h : i % 2 = 0 <;> simp [rowZ, h]
      rw [hrow, createGroundLine, createGroundLineAux_some rng s sizeZ.toNat _ _ st sg hsg]
      dsimp only
      rw [ih (i + 1) _ _ rfl]
      simp only [Except.ok.injEq, GVState.mk.injEq, ShadowGen.mk.injEq,
        Option.some.injEq, List.append_assoc]
      have hmul : (n + 1) * sizeZ.toNat = sizeZ.toNat + n * sizeZ.toNat := by ring
      refine ⟨trivial, trivial, ?_, by rw [hmul]; omega, ⟨trivial, trivial, ?_⟩,
        by rw [hmul]; omega, ?_⟩
      · rw [List.range_succ_eq_map, List.flatMap_cons, List.flatMap_map]
        refine congrArg₂ _ rfl (congrArg₂ _ ?_ ?_)
        · apply List.map_congr_left
          intro j _
          simp only [Nat.zero_mul, Nat.zero_add, Nat.add_zero]
        · apply List.flatMap_congr
          intro k _
          apply List.map_congr_left
          intro j _
          have e1 : st.nextId + sizeZ.toNat + (k * sizeZ.toNat + j) =
              st.nextId + ((k + 1) * sizeZ.toNat + j) := by ring
          have e2 : st.randIdx + sizeZ.toNat + (k * sizeZ.toNat + j) =
              st.randIdx + ((k + 1) * sizeZ.toNat + j) := by ring
          have e3 : i + 1 + k = i + (k + 1) := by omega
          rw [e1, e2, e3]
      · rw [hmul, List.range_add, List.map_append, List.map_map]
        refine congrArg₂ _ rfl (congrArg₂ _ rfl ?_)
        apply List.map_congr_left
        intro j _
        simp only [Function.comp_apply]
        omega
      · rw [hmul, List.replicate_add]

/-- Closed form of `createGround` when the shadow generator is assigned. -/
lemma createGround_some {K : Type} [Field K] (rng : ℕ → K) (s : K)
    (size : GroundSize) (XPos ZPos : K) (st : GVState K) (sg : ShadowGen K)
    (hsg : st.shadowGen = some sg) :
    createGround rng s size XPos ZPos st = Except.ok
      { st with
        meshes := st.meshes ++ (List.range size.x.toNat).flatMap (fun (k : ℕ) =>
          (List.range size.z.toNat).map (fun (j : ℕ) =>
            mkColumn (st.nextId + (k * size.z.toNat + j))
              (XPos + (k : K) * (3/4)) (rowZ ZPos k + (j : K) * s)
              (rng (st.randIdx + (k * size.z.toNat + j)) / 2 + 1/2)))
        nextId := st.nextId + size.x.toNat * size.z.toNat
        randIdx := st.randIdx + size.x.toNat * size.z.toNat
        shadowGen := some { sg with casters := sg.casters ++
          (List.range (size.x.toNat * size.z.toNat)).map (fun (j : ℕ) => st.nextId + j) }
        trace := st.trace ++
          List.replicate (size.x.toNat * size.z.toNat) BuildEvent.columnCreated } := by
  rw [createGround, createGroundRowsAux_some rng s size.z XPos ZPos size.x.toNat 0 st sg hsg]
  simp

/-- The `(posX, posZ)` projections of the columns `createGround` builds are
exactly the points of `generateLayout`, in order: `createGround` emits one
placement point per `createGroundObject` call. -/
lemma createGround_positions {K : Type} [Field K] (rng : ℕ → K) (s : K)
    (size : GroundSize) (XPos ZPos : K) (st : GVState K) (sg : ShadowGen K)
    (hsg : st.shadowGen = some sg) :
    ∃ st', createGround rng s size XPos ZPos st = Except.ok st' ∧
      st'.meshes.map (fun m => (m.posX, m.posZ)) =
        st.meshes.map (fun m => (m.posX, m.posZ)) ++
          generateLayout s size.x size.z XPos ZPos ∧
      st'.meshes.length = st.meshes.length + size.x.toNat * size.z.toNat := by
  refine ⟨_, createGround_some rng s size XPos ZPos st sg hsg, ?_, ?_⟩
  · rw [generateLayout_eq]
    simp only [List.map_append, List.map_flatMap, List.map_map]
    refine congrArg₂ _ rfl (List.flatMap_congr ?_)
    intro k _
    apply List.map_congr_left
    intro j _
    simp [mkColumn, newMesh]
  · simp only [List.length_append, List.length_flatMap, List.map_map]
    simp [Function.comp_def, Nat.mul_comm]

/-- A row loop over zero columns per row does nothing, whatever the state. -/
lemma createGroundRowsAux_zero_cols {K : Type} [Field K] (rng : ℕ → K) (s : K)
    (sizeZ : ℤ) (hz : sizeZ.toNat = 0) (XPos ZPos : K) :
    ∀ (n i : ℕ) (st : GVState K),
      createGroundRowsAux rng s sizeZ XPos ZPos i n st = Except.ok st := by
  intro n
  induction n with
  | zero => intro i st; rw [createGroundRowsAux]
  | succ n ih =>
      intro i st
      rw [createGroundRowsAux]
      have hline : ∀ X Z : K, createGroundLine rng s sizeZ X Z st = Except.ok st := by
        intro X Z
        rw [createGroundLine, hz, createGroundLineAux]
      by_cases h : i % 2 = 0 <;> simp only [h, if_true, if_false, hline] <;> exact ih (i + 1) st

/-- A directional light with the parameters of line 55–56; a concrete test
fixture for witnesses. -/
def sampleLight (K : Type) [Field K] : LightState K :=
  { name := "dir01", direction := (0, -(1/10), 1/10), position := (10, 10, 0) }

/-- A shadow generator as line 57 builds it, with no casters yet; a concrete
test fixture for witnesses. -/
def sampleShadowGen (K : Type) [Field K] : ShadowGen K :=
  { mapSize := 1024, light := sampleLight K, casters := [] }

/-- An empty scene whose `shadowGenerator` has been assigned; a concrete
test fixture for witnesses. -/
def sampleState (K : Type) [Field K] : GVState K :=
  { cameras := [], lights := [], meshes := [], nextId := 0
    shadowGen := some (sampleShadowGen K), randIdx := 0, trace := [] }

/-- An empty scene whose `shadowGenerator` is still undefined (the situation
before `createScene` has run); a concrete test fixture for witnesses. -/
def bareState (K : Type) [Field K] : GVState K :=
  { sampleState K with shadowGen := none }

/-! ## Claims -/

/-- C1: for every non-negative `rowCount` and `columnsPerRow`,
`generateLayout` — the hex layout produced by `createGround`, which emits
one point per `createGroundObject` call — produces exactly
`rowCount * columnsPerRow` placement points, in row-major then column-major
order (row `i`, column `j` at flat index `i * columnsPerRow + j`). -/
theorem C1_generateLayout_count_row_major (rowCount columnsPerRow : ℤ)
    (h1 : 0 ≤ rowCount) (h2 : 0 ≤ columnsPerRow) (originX originZ : ℝ)
    (rng : ℕ → ℝ) (st : GVState ℝ) (sg : ShadowGen ℝ)
    (hsg : st.shadowGen = some sg) :
    ((generateLayout (Real.sqrt 3 / 2) rowCount columnsPerRow originX originZ).length : ℤ) =
        rowCount * columnsPerRow ∧
    generateLayout (Real.sqrt 3 / 2) rowCount columnsPerRow originX originZ =
      (List.range rowCount.toNat).flatMap (fun (i : ℕ) =>
        (List.range columnsPerRow.toNat).map (fun (j : ℕ) =>
          (originX + (i : ℝ) * (3/4), rowZ originZ i + (j : ℝ) * (Real.sqrt 3 / 2)))) ∧
    ∃ st', createGround rng (Real.sqrt 3 / 2) ⟨rowCount, columnsPerRow⟩
        originX originZ st = Except.ok st' ∧
      st'.meshes.map (fun m => (m.posX, m.posZ)) =
        st.meshes.map (fun m => (m.posX, m.posZ)) ++
          generateLayout (Real.sqrt 3 / 2) rowCount columnsPerRow originX originZ := by
  refine ⟨?_, generateLayout_eq _ _ _ _ _, ?_⟩
  · rw [generateLayout_length]
    push_cast
    rw [Int.toNat_of_nonneg h1, Int.toNat_of_nonneg h2]
  · obtain ⟨st', hrun, hpos, _⟩ :=
      createGround_positions rng (Real.sqrt 3 / 2) ⟨rowCount, columnsPerRow⟩
        originX originZ st sg hsg
    exact ⟨st', hrun, hpos⟩

/-- C1 witness: a 2-row, 3-column layout on the assigned sample scene. -/
theorem C1_witness :
    (0:ℤ) ≤ 2 ∧ (0:ℤ) ≤ 3 ∧ (sampleState ℝ).shadowGen = some (sampleShadowGen ℝ) ∧
    ((generateLayout (Real.sqrt 3 / 2) 2 3 0 0).length : ℤ) = 2 * 3 := by
  refine ⟨by norm_num, by norm_num, rfl, ?_⟩
  exact (C1_generateLayout_count_row_major 2 3 (by norm_num) (by norm_num) 0 0
    (fun _ => 0) (sampleState ℝ) (sampleShadowGen ℝ) rfl).1

/-- C2: the first point of row `i` (flat index `i * columnsPerRow`) has
z-coordinate `originZ + 0.5` for even `i` and `originZ` for odd `i`; in
particular `generateLayout (2, 1, 0, 0)` is exactly
`[(0, 0.5), (0.75, 0)]`. -/
theorem C2_row_start_offset (rowCount columnsPerRow : ℤ) (originX originZ : ℝ)
    (i : ℕ) (hi : i < rowCount.toNat) (hc : 0 < columnsPerRow.toNat) :
    (generateLayout (Real.sqrt 3 / 2) rowCount columnsPerRow originX originZ)[i * columnsPerRow.toNat]? =
        some (originX + (i : ℝ) * (3/4),
          if i % 2 = 0 then originZ + 1/2 else originZ) ∧
    generateLayout (Real.sqrt 3 / 2) 2 1 (0:ℝ) 0 = [(0, 1/2), (3/4, 0)] := by
  constructor
  · have h := generateLayout_getElem (Real.sqrt 3 / 2) rowCount columnsPerRow
      originX originZ i 0 hi hc
    rw [Nat.add_zero] at h
    rw [h]
    simp [rowZ]
  · norm_num [generateLayout, generateRows, generateLine, rowZ, Int.toNat_one]

/-- C2 witness: row 0 of a 2×1 layout starts at `z = 0.5`. -/
theorem C2_witness :
    (0:ℕ) < (2:ℤ).toNat ∧ (0:ℕ) < (1:ℤ).toNat ∧
    (generateLayout (Real.sqrt 3 / 2) 2 1 (0:ℝ) 0)[0 * (1:ℤ).toNat]? =
      some ((0:ℝ) + (0:ℕ) * (3/4), if 0 % 2 = 0 then (0:ℝ) + 1/2 else 0) := by
  refine ⟨by decide, by decide, ?_⟩
  exact (C2_row_start_offset 2 1 0 0 0 (by decide) (by decide)).1

/-- C3: for every row `i` and column `j` of the generated layout, the point
has x-coordinate `originX + i * 0.75`; whenever the row has a successor
point `j+1`, the two differ in z by exactly `√3/2` (and share their x);
and whenever a successor row `i+1` exists, its first point sits `0.75` (a
strictly positive step) to the right of the first point of row `i`. -/
theorem C3_row_spacing (rowCount columnsPerRow : ℤ) (originX originZ : ℝ)
    (i j : ℕ) (hi : i < rowCount.toNat) (hj : j < columnsPerRow.toNat) :
    ∃ p : Point ℝ,
      (generateLayout (Real.sqrt 3 / 2) rowCount columnsPerRow originX originZ)[i * columnsPerRow.toNat + j]? = some p ∧
      p.1 = originX + (i : ℝ) * (3/4) ∧
      (j + 1 < columnsPerRow.toNat →
        ∃ q : Point ℝ,
          (generateLayout (Real.sqrt 3 / 2) rowCount columnsPerRow originX originZ)[i * columnsPerRow.toNat + (j + 1)]? = some q ∧
          q.2 - p.2 = Real.sqrt 3 / 2 ∧ q.1 = p.1) ∧
      (i + 1 < rowCount.toNat →
        ∃ r0 r1 : Point ℝ,
          (generateLayout (Real.sqrt 3 / 2) rowCount columnsPerRow originX originZ)[i * columnsPerRow.toNat]? = some r0 ∧
          (generateLayout (Real.sqrt 3 / 2) rowCount columnsPerRow originX originZ)[(i + 1) * columnsPerRow.toNat]? = some r1 ∧
          r1.1 - r0.1 = 3/4 ∧ (0:ℝ) < 3/4) := by
  have hp := generateLayout_getElem (Real.sqrt 3 / 2) rowCount columnsPerRow
    originX originZ i j hi hj
  refine ⟨_, hp, rfl, ?_, ?_⟩
  · intro hj1
    have hq := generateLayout_getElem (Real.sqrt 3 / 2) rowCount columnsPerRow
      originX originZ i (j + 1) hi hj1
    refine ⟨_, hq, ?_, rfl⟩
    push_cast
    ring
  · intro hi1
    have hc : 0 < columnsPerRow.toNat := by omega
    have hr0 := generateLayout_getElem (Real.sqrt 3 / 2) rowCount columnsPerRow
      originX originZ i 0 hi hc
    have hr1 := generateLayout_getElem (Real.sqrt 3 / 2) rowCount columnsPerRow
      originX originZ (i + 1) 0 hi1 hc
    rw [Nat.add_zero] at hr0 hr1
    refine ⟨_, _, hr0, hr1, ?_, by norm_num⟩
    push_cast
    ring

/-- C3 witness: the first point of the single-row layout
`generateLayout(1, 5, 0, 0)` — the last (and only) row is covered. -/
theorem C3_witness :
    (0:ℕ) < (1:ℤ).toNat ∧ (0:ℕ) < (5:ℤ).toNat ∧
    ∃ p : Point ℝ,
      (generateLayout (Real.sqrt 3 / 2) 1 5 (0:ℝ) 0)[0 * (5:ℤ).toNat + 0]? = some p ∧
      p.1 = 0 + ((0:ℕ) : ℝ) * (3/4) ∧
      ((0:ℕ) + 1 < (5:ℤ).toNat →
        ∃ q : Point ℝ,
          (generateLayout (Real.sqrt 3 / 2) 1 5 (0:ℝ) 0)[0 * (5:ℤ).toNat + (0 + 1)]? = some q ∧
          q.2 - p.2 = Real.sqrt 3 / 2 ∧ q.1 = p.1) ∧
      ((0:ℕ) + 1 < (1:ℤ).toNat →
        ∃ r0 r1 : Point ℝ,
          (generateLayout (Real.sqrt 3 / 2) 1 5 (0:ℝ) 0)[0 * (5:ℤ).toNat]? = some r0 ∧
          (generateLayout (Real.sqrt 3 / 2) 1 5 (0:ℝ) 0)[((0:ℕ) + 1) * (5:ℤ).toNat]? = some r1 ∧
          r1.1 - r0.1 = 3/4 ∧ (0:ℝ) < 3/4) :=
  ⟨by decide, by decide, C3_row_spacing 1 5 0 0 0 0 (by decide) (by decide)⟩

/-- C5 counterexample: `generateLayout(-1, 5, 0, 0)` does not fail — neither
`createGround` nor its helpers contain any argument check; the loop guard
runs zero iterations, so the layout is the empty sequence and the effectful
builder returns the scene unchanged (`Except.ok`, no fault of any kind). -/
theorem C5_counterexample :
    generateLayout (Real.sqrt 3 / 2) (-1) 5 (0:ℝ) 0 = [] ∧
    createGround (fun _ => 0) (Real.sqrt 3 / 2) ⟨-1, 5⟩ (0:ℝ) 0 (sampleState ℝ) =
      Except.ok (sampleState ℝ) := by
  constructor
  · rfl
  · rfl

/-- C5 amended: a negative `rowCount` or `columnsPerRow` is not rejected —
there is no `InvalidArgument` failure mode; the corresponding loop simply
runs zero times, the layout is empty and `createGround` succeeds leaving
the scene untouched. -/
theorem C5_amended_negative_counts (rowCount columnsPerRow : ℤ)
    (h : rowCount < 0 ∨ columnsPerRow < 0) (originX originZ : ℝ)
    (rng : ℕ → ℝ) (st : GVState ℝ) :
    generateLayout (Real.sqrt 3 / 2) rowCount columnsPerRow originX originZ = [] ∧
    createGround rng (Real.sqrt 3 / 2) ⟨rowCount, columnsPerRow⟩ originX originZ st =
      Except.ok st := by
  rcases h with h | h
  · have hx : rowCount.toNat = 0 := Int.toNat_of_nonpos (le_of_lt h)
    constructor
    · rw [generateLayout, hx, generateRows]
    · rw [createGround]
      have hx' : (GroundSize.mk rowCount columnsPerRow).x.toNat = 0 := hx
      rw [hx', createGroundRowsAux]
  · have hz : columnsPerRow.toNat = 0 := Int.toNat_of_nonpos (le_of_lt h)
    constructor
    · rw [generateLayout_eq, hz]
      simp
    · rw [createGround]
      exact createGroundRowsAux_zero_cols rng _ columnsPerRow hz originX originZ _ 0 st

/-- C5 witness: the spec's own instance `(-1, 5, 0, 0)`. -/
theorem C5_witness :
    ((-1:ℤ) < 0 ∨ (5:ℤ) < 0) ∧
    generateLayout (Real.sqrt 3 / 2) (-1) 5 (0:ℝ) 0 = [] :=
  ⟨Or.inl (by decide),
    (C5_amended_negative_counts (-1) 5 (Or.inl (by decide)) 0 0
      (fun _ => 0) (sampleState ℝ)).1⟩

/-- C4: whenever every `Math.random()` draw lies in `[0, 1)`, every column
constructed by the hex-field builder is a cylinder of diameter 1 and
tessellation 6 whose height lies in `[1/2, 1)` and whose `position.y` is
`height / 2` (so its base rests on the plane `y = 0`); moreover the height
map `r ↦ r/2 + 1/2` reaches every value of `[1/2, 1)` from a draw in
`[0, 1)` (it is the order-preserving affine bijection under which the
uniform draw stays uniform). -/
theorem C4_column_height_and_y (rng : ℕ → ℝ) (hr : ∀ n, 0 ≤ rng n ∧ rng n < 1)
    (size : GroundSize) (XPos ZPos : ℝ) (st : GVState ℝ) (sg : ShadowGen ℝ)
    (hsg : st.shadowGen = some sg) :
    (∃ st', createGround rng (Real.sqrt 3 / 2) size XPos ZPos st = Except.ok st' ∧
      ∀ m ∈ st'.meshes.drop st.meshes.length, ∃ h : ℝ,
        m.params = MeshParams.cylinder 1 6 h ∧
        1/2 ≤ h ∧ h < 1 ∧ m.posY = h / 2) ∧
    (∀ hh : ℝ, 1/2 ≤ hh → hh < 1 → ∃ r : ℝ, 0 ≤ r ∧ r < 1 ∧ r / 2 + 1/2 = hh) := by
  constructor
  · refine ⟨_, createGround_some rng (Real.sqrt 3 / 2) size XPos ZPos st sg hsg, ?_⟩
    intro m hm
    rw [List.drop_left] at hm
    simp only [List.mem_flatMap, List.mem_map, List.mem_range] at hm
    obtain ⟨k, _, j, _, rfl⟩ := hm
    obtain ⟨h0, h1⟩ := hr (st.randIdx + (k * size.z.toNat + j))
    refine ⟨rng (st.randIdx + (k * size.z.toNat + j)) / 2 + 1/2, ?_, ?_, ?_, ?_⟩
    · simp [mkColumn, newMesh]
    · linarith
    · linarith
    · simp [mkColumn, newMesh]
  · intro hh hlo hhi
    exact ⟨2 * hh - 1, by linarith, by linarith, by ring⟩

/-- C4 witness: a 1×1 field with the constant draw 0 on the sample scene. -/
theorem C4_witness :
    (∀ n : ℕ, 0 ≤ (fun _ => (0:ℝ)) n ∧ (fun _ => (0:ℝ)) n < 1) ∧
    (sampleState ℝ).shadowGen = some (sampleShadowGen ℝ) ∧
    ∃ st', createGround (fun _ => (0:ℝ)) (Real.sqrt 3 / 2) ⟨1, 1⟩ 0 0
        (sampleState ℝ) = Except.ok st' ∧
      ∀ m ∈ st'.meshes.drop (sampleState ℝ).meshes.length, ∃ h : ℝ,
        m.params = MeshParams.cylinder 1 6 h ∧
        1/2 ≤ h ∧ h < 1 ∧ m.posY = h / 2 :=
  ⟨fun _ => ⟨by norm_num, by norm_num⟩, rfl,
    (C4_column_height_and_y (fun _ => 0) (fun _ => ⟨by norm_num, by norm_num⟩)
      ⟨1, 1⟩ 0 0 (sampleState ℝ) (sampleShadowGen ℝ) rfl).1⟩

/-- C6: building the hex column field over a layout of `N` points grows the
shadow generator's caster set by exactly `N` — one insertion per column —
and, provided the pre-existing caster ids are distinct and older than every
freshly created mesh, the resulting caster set is still duplicate-free and
holds each new column's id exactly once; every new column is marked to
receive shadows. -/
theorem C6_shadow_casters (rng : ℕ → ℝ) (size : GroundSize) (XPos ZPos : ℝ)
    (st : GVState ℝ) (sg : ShadowGen ℝ) (hsg : st.shadowGen = some sg)
    (hnodup : sg.casters.Nodup) (hbound : ∀ c ∈ sg.casters, c < st.nextId) :
    ∃ st' g', createGround rng (Real.sqrt 3 / 2) size XPos ZPos st = Except.ok st' ∧
      st'.shadowGen = some g' ∧
      g'.casters.length = sg.casters.length +
        (generateLayout (Real.sqrt 3 / 2) size.x size.z XPos ZPos).length ∧
      st'.meshes.length = st.meshes.length +
        (generateLayout (Real.sqrt 3 / 2) size.x size.z XPos ZPos).length ∧
      g'.casters.Nodup ∧
      ∀ m ∈ st'.meshes.drop st.meshes.length,
        m.receiveShadows = true ∧ g'.casters.count m.id = 1 := by
  have hN := generateLayout_length (Real.sqrt 3 / 2) size.x size.z XPos ZPos
  refine ⟨_, _, createGround_some rng (Real.sqrt 3 / 2) size XPos ZPos st sg hsg,
    rfl, ?_, ?_, ?_, ?_⟩
  · simp [hN]
  · rw [hN]
    simp only [List.length_append, List.length_flatMap, List.map_map]
    simp [Function.comp_def, Nat.mul_comm]
  · refine List.Nodup.append hnodup
      ((List.nodup_range _).map (fun a b hab => by omega)) ?_
    intro c hc hc'
    have h1 : c < st.nextId := hbound c hc
    simp only [List.mem_map, List.mem_range] at hc'
    obtain ⟨j, _, rfl⟩ := hc'
    omega
  · intro m hm
    rw [List.drop_left] at hm
    simp only [List.mem_flatMap, List.mem_map, List.mem_range] at hm
    obtain ⟨k, hk, j, hj, rfl⟩ := hm
    constructor
    · simp [mkColumn, newMesh]
    · have hid : (mkColumn (st.nextId + (k * size.z.toNat + j))
          (XPos + (k:ℝ) * (3/4)) (rowZ ZPos k + (j:ℝ) * (Real.sqrt 3 / 2))
          (rng (st.randIdx + (k * size.z.toNat + j)) / 2 + 1/2)).id =
          st.nextId + (k * size.z.toNat + j) := rfl
      rw [hid, List.count_append]
      have hlt : k * size.z.toNat + j < size.x.toNat * size.z.toNat := by
        have h1 : (k + 1) * size.z.toNat = k * size.z.toNat + size.z.toNat := by ring
        have h2 : (k + 1) * size.z.toNat ≤ size.x.toNat * size.z.toNat :=
          Nat.mul_le_mul_right _ hk
        omega
      have hzero : sg.casters.count (st.nextId + (k * size.z.toNat + j)) = 0 := by
        apply List.count_eq_zero_of_not_mem
        intro hmem
        have := hbound _ hmem
        omega
      have hone : ((List.range (size.x.toNat * size.z.toNat)).map
          (fun (j : ℕ) => st.nextId + j)).count (st.nextId + (k * size.z.toNat + j)) = 1 := by
        apply List.count_eq_one_of_mem
        · exact (List.nodup_range _).map (fun a b hab => by omega)
        · simp only [List.mem_map, List.mem_range]
          exact ⟨k * size.z.toNat + j, hlt, rfl⟩
      omega

/-- C6 witness: a 1×1 field on the freshly assigned sample scene (empty,
duplicate-free caster set). -/
theorem C6_witness :
    (sampleState ℝ).shadowGen = some (sampleShadowGen ℝ) ∧
    (sampleShadowGen ℝ).casters.Nodup ∧
    (∀ c ∈ (sampleShadowGen ℝ).casters, c < (sampleState ℝ).nextId) ∧
    ∃ st' g', createGround (fun _ => (0:ℝ)) (Real.sqrt 3 / 2) ⟨1, 1⟩ 0 0
        (sampleState ℝ) = Except.ok st' ∧
      st'.shadowGen = some g' ∧
      g'.casters.length = (sampleShadowGen ℝ).casters.length +
        (generateLayout (Real.sqrt 3 / 2) (GroundSize.mk 1 1).x (GroundSize.mk 1 1).z (0:ℝ) 0).length ∧
      st'.meshes.length = (sampleState ℝ).meshes.length +
        (generateLayout (Real.sqrt 3 / 2) (GroundSize.mk 1 1).x (GroundSize.mk 1 1).z (0:ℝ) 0).length ∧
      g'.casters.Nodup ∧
      ∀ m ∈ st'.meshes.drop (sampleState ℝ).meshes.length,
        m.receiveShadows = true ∧ g'.casters.count m.id = 1 :=
  ⟨rfl, List.nodup_nil, fun c hc => absurd hc (List.not_mem_nil c),
    C6_shadow_casters (fun _ => 0) ⟨1, 1⟩ 0 0 (sampleState ℝ) (sampleShadowGen ℝ)
      rfl List.nodup_nil (fun c hc => absurd hc (List.not_mem_nil c))⟩

/-- C7: `createScene` performs its construction steps in the fixed order
Scene, Camera (attached to the canvas), Light, ShadowGenerator, ground,
SkyBox — so the Light exists before the ShadowGenerator, which is bound to
that very Light with shadow-map resolution 1024 — and the assembled scene
holds exactly one Camera, one Light, one ShadowGenerator and one SkyBox. -/
theorem C7_assembly_order {K : Type} [Field K] (pi : K) (canvas : String) :
    (createScene pi canvas).trace =
      [BuildEvent.sceneCreated, BuildEvent.cameraCreated, BuildEvent.lightCreated,
       BuildEvent.shadowGeneratorCreated, BuildEvent.groundCreated,
       BuildEvent.skyBoxCreated] ∧
    (createScene pi canvas).trace.indexOf BuildEvent.lightCreated <
      (createScene pi canvas).trace.indexOf BuildEvent.shadowGeneratorCreated ∧
    (createScene pi canvas).cameras.length = 1 ∧
    (∀ c ∈ (createScene pi canvas).cameras, c.attachedTo = some canvas) ∧
    (createScene pi canvas).lights.length = 1 ∧
    (∃ l, (createScene pi canvas).lights = [l] ∧
      (createScene pi canvas).shadowGen = some { mapSize := 1024, light := l, casters := [] }) ∧
    ((createScene pi canvas).meshes.filter (fun m => m.name == "skyBox")).length = 1 := by
  refine ⟨rfl, ?_, rfl, ?_, rfl, ⟨_, rfl, rfl⟩, ?_⟩
  · show List.indexOf BuildEvent.lightCreated
        [BuildEvent.sceneCreated, BuildEvent.cameraCreated, BuildEvent.lightCreated,
         BuildEvent.shadowGeneratorCreated, BuildEvent.groundCreated,
         BuildEvent.skyBoxCreated] <
      List.indexOf BuildEvent.shadowGeneratorCreated
        [BuildEvent.sceneCreated, BuildEvent.cameraCreated, BuildEvent.lightCreated,
         BuildEvent.shadowGeneratorCreated, BuildEvent.groundCreated,
         BuildEvent.skyBoxCreated]
    decide
  · intro c hc
    simp only [createScene, createRealGround, createSkyBox, List.mem_singleton,
      List.nil_append, List.mem_cons] at hc
    rcases hc with rfl | hc
    · rfl
    · cases hc
  · rfl

/-- C8: the skybox is a cube of size 1000 whose material has back-face
culling disabled, a cube-map reflection texture in skybox coordinate mode,
and zero diffuse and specular color. -/
theorem C8_skybox_properties {K : Type} [Field K] (st : GVState K) :
    ∃ (m : Mesh K) (matl : MaterialState K),
      createSkyBox st = { st with meshes := st.meshes ++ [m]
                                  nextId := st.nextId + 1
                                  trace := st.trace ++ [BuildEvent.skyBoxCreated] } ∧
      m.name = "skyBox" ∧ m.params = MeshParams.box 1000 ∧
      m.material = some matl ∧
      matl.backFaceCulling = false ∧
      matl.reflectionTexture = some { path := "src/assets/map/skybox/skybox"
                                      coordinatesMode := CoordinatesMode.skyboxMode } ∧
      matl.diffuseColor = ⟨0, 0, 0⟩ ∧ matl.specularColor = ⟨0, 0, 0⟩ :=
  ⟨_, _, rfl, rfl, rfl, rfl, rfl, rfl, rfl, rfl⟩

/-- Dispatching an event never changes the registrations. -/
lemma dispatchEvent_fst (r : Registrations) (e : HostEvent) :
    (dispatchEvent r e).1 = r := by
  cases e <;> rfl

/-- Delivering any sequence of events leaves the registrations intact. -/
lemma runHost_fst (r : Registrations) (events : List HostEvent) :
    (runHost r events).1 = r := by
  induction events with
  | nil => rfl
  | cons e es ih =>
      rw [runHost]
      simpa [dispatchEvent_fst] using ih

/-- With the render loop installed and exactly one resize listener, each
resize event produces exactly one `engine.resize()` and each tick exactly
one `scene.render()`. -/
lemma runHost_counts (r : Registrations) (hrl : r.renderLoop = true)
    (h1 : r.resizeListeners = 1) (events : List HostEvent) :
    (runHost r events).2.count HostAction.engineResize =
        events.count HostEvent.resize ∧
    (runHost r events).2.count HostAction.render = events.count HostEvent.tick := by
  induction events with
  | nil => exact ⟨rfl, rfl⟩
  | cons e es ih =>
      rw [runHost]
      obtain ⟨ih1, ih2⟩ := ih
      cases e <;>
        simp [dispatchEvent, dispatchEvent_fst, hrl, h1, List.count_cons,
          List.count_append, ih1, ih2]

/-- C9: after `Init` has run, the registrations are one render-loop body and
one resize listener, they never change while events are delivered, every
resize notification triggers exactly one `engine.resize()` call, and every
tick still renders (the render loop is never interrupted by resize
events). -/
theorem C9_resize_one_to_one {K : Type} [Field K] (pi : K) (canvas : String)
    (events : List HostEvent) :
    (Init pi canvas).2 = { renderLoop := true, resizeListeners := 1 } ∧
    (runHost (Init pi canvas).2 events).1 = (Init pi canvas).2 ∧
    (runHost (Init pi canvas).2 events).2.count HostAction.engineResize =
        events.count HostEvent.resize ∧
    (runHost (Init pi canvas).2 events).2.count HostAction.render =
        events.count HostEvent.tick := by
  refine ⟨rfl, runHost_fst _ _, ?_, ?_⟩
  · exact (runHost_counts _ rfl rfl events).1
  · exact (runHost_counts _ rfl rfl events).2

/-- With `shadowGenerator` still undefined, `createGroundObject` builds and
places the cylinder but faults at the `addShadowCaster` call. -/
lemma createGroundObject_none {K : Type} [Field K] (x z height : K)
    (st : GVState K) (hnone : st.shadowGen = none) :
    createGroundObject x z height st = Except.error (Fault.undefinedShadowGenerator,
      { st with meshes := st.meshes ++ [mkColumn st.nextId x z height]
                nextId := st.nextId + 1
                trace := st.trace ++ [BuildEvent.columnCreated] }) := by
  rw [createGroundObject]
  simp only [hnone]

/-- A nonempty column line faults on its first column when the shadow
generator is undefined. -/
lemma createGroundLineAux_none {K : Type} [Field K] (rng : ℕ → K) (s : K)
    (n : ℕ) (hn : 0 < n) (XPos ZPos : K) (st : GVState K)
    (hnone : st.shadowGen = none) :
    ∃ st1, createGroundLineAux rng s n XPos ZPos st =
      Except.error (Fault.undefinedShadowGenerator, st1) := by
  cases n with
  | zero => omega
  | succ m =>
      rw [createGroundLineAux]
      rw [createGroundObject_none XPos ZPos (rng st.randIdx / 2 + 1/2) _
        (show ({ st with randIdx := st.randIdx + 1 } : GVState K).shadowGen = none from hnone)]
      exact ⟨_, rfl⟩

/-- A nonempty hex field faults on its very first column when the shadow
generator is undefined. -/
lemma createGround_none {K : Type} [Field K] (rng : ℕ → K) (s : K)
    (size : GroundSize) (hx : 0 < size.x.toNat) (hz : 0 < size.z.toNat)
    (XPos ZPos : K) (st : GVState K) (hnone : st.shadowGen = none) :
    ∃ st1, createGround rng s size XPos ZPos st =
      Except.error (Fault.undefinedShadowGenerator, st1) := by
  rw [createGround]
  obtain ⟨n, hn⟩ : ∃ n, size.x.toNat = n + 1 := ⟨size.x.toNat - 1, by omega⟩
  rw [hn, createGroundRowsAux]
  rw [if_pos (by norm_num)]
  rw [createGroundLine]
  obtain ⟨st1, h1⟩ := createGroundLineAux_none rng s size.z.toNat hz
    (XPos + ((0 : ℕ) : K) * (3/4)) (ZPos + 1/2) st hnone
  rw [h1]
  exact ⟨st1, rfl⟩

/-- C10: `createGroundObject` dereferences the module-level
`shadowGenerator`; before `createScene` has assigned it, the registration
step faults (on a single column and on any nonempty hex field), while
`createScene` assigns the generator before any ground construction, so the
hex-field builders run against the assembled scene without ever touching an
uninitialized generator. -/
theorem C10_shadowGenerator_initialization {K : Type} [Field K] (pi : K)
    (canvas : String) (x z height : K) (st : GVState K)
    (hnone : st.shadowGen = none) (rng : ℕ → K) (s : K) (size : GroundSize)
    (hx : 0 < size.x.toNat) (hz : 0 < size.z.toNat) (XPos ZPos : K) :
    (∃ st1, createGroundObject x z height st =
        Except.error (Fault.undefinedShadowGenerator, st1)) ∧
    (∃ st1, createGround rng s size XPos ZPos st =
        Except.error (Fault.undefinedShadowGenerator, st1)) ∧
    (∃ sg, (createScene pi canvas).shadowGen = some sg) ∧
    (∃ st', createGround rng s size XPos ZPos (createScene pi canvas) =
        Except.ok st') := by
  refine ⟨⟨_, createGroundObject_none x z height st hnone⟩,
    createGround_none rng s size hx hz XPos ZPos st hnone, ⟨_, rfl⟩, ?_⟩
  exact ⟨_, createGround_some rng s size XPos ZPos (createScene pi canvas) _ rfl⟩

/-- C10 witness: a single column on the bare (pre-`createScene`) scene
faults on shadow-caster registration. -/
theorem C10_witness :
    (bareState ℚ).shadowGen = none ∧
    0 < (GroundSize.mk 1 1).x.toNat ∧ 0 < (GroundSize.mk 1 1).z.toNat ∧
    ∃ st1, createGroundObject (0:ℚ) 0 0 (bareState ℚ) =
      Except.error (Fault.undefinedShadowGenerator, st1) :=
  ⟨rfl, by decide, by decide,
    (C10_shadowGenerator_initialization (0:ℚ) "canvas" 0 0 0 (bareState ℚ) rfl
      (fun _ => 0) 0 ⟨1, 1⟩ (by decide) (by decide) 0 0).1⟩
